import Mathlib

/-!
Shallow embedding of the sbserver protocol-gateway layer (src/app.go) and
verification of its specification claims.

The source is a Go HTTP proxy for the Safe Browsing v4 API.  We embed the
pure content of its handlers:

* `negotiateMime` — the encoding-selection part of `unmarshal` (app.go
  lines 224-237).  The body-decode part calls the external jsonpb/proto
  libraries and is not needed by any claim.
* `serveLookups` — the `/v4/threatMatches:find` handler (app.go 306-366).
  The classifier (`sb.LookupURLs`) is an external collaborator and is
  passed in as a function argument; the response-composition loop
  (app.go 341-359) is `composeResponse`.
* `serveLists` — the `/v4/threatLists` handler (app.go 372-407).
* `serveStatus` — the `/status` handler (app.go 284-300); the external
  `json.Marshal` call is abstracted as an `encodeErr` argument (it is the
  only fallible step of that handler).

Go's `map[ThreatDescriptor]bool`, used purely as a set to deduplicate
triples, has unspecified iteration order; we model it as a
first-insertion-ordered key list (`mapKeys`).  All properties proved about
one URL's group of matches are insensitive to the order chosen.
-/

/-- MIME constant from app.go line 199. -/
def mimeJSON : String := "application/json"

/-- MIME constant from app.go line 200. -/
def mimeProto : String := "application/x-protobuf"

/-- ThreatEntry message: a URL string plus optional hash bytes. -/
structure ThreatEntry where
  url : String
  hash : List Nat
deriving DecidableEq, Repr

/-- ThreatInfo message: filter fields (decoded but unused by the gateway)
plus the ordered entries. -/
structure ThreatInfo where
  threatTypes : List Nat
  platformTypes : List Nat
  threatEntryTypes : List Nat
  threatEntries : List ThreatEntry
deriving DecidableEq, Repr

/-- FindThreatMatchesRequest message wrapping a ThreatInfo. -/
structure FindThreatMatchesRequest where
  threatInfo : ThreatInfo
deriving DecidableEq, Repr

/-- A (threatType, platformType, threatEntryType) triple
(safebrowsing.ThreatDescriptor). -/
structure ThreatDescriptor where
  threatType : Nat
  platformType : Nat
  threatEntryType : Nat
deriving DecidableEq, Repr

/-- safebrowsing.URLThreat: a matched pattern together with its
descriptor.  `serveLookups` only reads the descriptor. -/
structure URLThreat where
  pattern : String
  threatDescriptor : ThreatDescriptor
deriving DecidableEq, Repr

/-- ThreatMatch message as composed by `serveLookups` (app.go 351-356). -/
structure ThreatMatch where
  threat : ThreatEntry
  threatType : Nat
  platformType : Nat
  threatEntryType : Nat
deriving DecidableEq, Repr

/-- ThreatListDescriptor message (app.go 395-399). -/
structure ThreatListDescriptor where
  threatType : Nat
  platformType : Nat
  threatEntryType : Nat
deriving DecidableEq, Repr

/-- Encoding selection of `unmarshal` (app.go 224-237): the `alt` query
parameter, falling back to the Content-Type header when `alt` is empty;
the result of the switch on the combined value.  A query parameter that
is absent is the empty string in Go (`Query().Get`). -/
def negotiateMime (altQ contentType : String) : Except String String :=
  let alt := if altQ = "" then contentType else altQ
  if alt = "json" ∨ alt = mimeJSON then Except.ok mimeJSON
  else if alt = "proto" ∨ alt = mimeProto then Except.ok mimeProto
  else Except.error "invalid interchange format"

/-- One ThreatMatch built at app.go 351-356: the Threat field is a fresh
ThreatEntry holding only the queried URL. -/
def mkMatch (u : String) (td : ThreatDescriptor) : ThreatMatch :=
  { threat := { url := u, hash := [] }
    threatType := td.threatType
    platformType := td.platformType
    threatEntryType := td.threatEntryType }

/-- Insertion of one key into the model of `map[ThreatDescriptor]bool`
(app.go 345-348): inserting a present key is a no-op. -/
def insertKey (ks : List ThreatDescriptor) (k : ThreatDescriptor) : List ThreatDescriptor :=
  if k ∈ ks then ks else ks ++ [k]

/-- Key set of the dedup map built from one URL position's results
(app.go 345-348), in first-insertion order (Go's iteration order is
unspecified; every property proved below is order-insensitive). -/
def mapKeys (uts : List URLThreat) : List ThreatDescriptor :=
  uts.foldl (fun ks ut => insertKey ks ut.threatDescriptor) []

/-- Emission loop over the dedup map for position `i` (app.go 350-358).
Each emitted match reads `urls[i]`; an out-of-range access (a Go panic)
is modelled as `none`.  When the key set is empty the index is never
read, as in the source. -/
def composeTds (urls : List String) (i : Nat) : List ThreatDescriptor → Option (List ThreatMatch)
  | [] => some []
  | td :: tds =>
    match urls[i]? with
    | none => none
    | some u =>
      match composeTds urls i tds with
      | none => none
      | some ms => some (mkMatch u td :: ms)

/-- The matches emitted for one URL position (app.go 343-358): dedup the
position's descriptors, then emit one match per surviving triple. -/
def composeGroup (urls : List String) (i : Nat) (uts : List URLThreat) :
    Option (List ThreatMatch) :=
  composeTds urls i (mapKeys uts)

/-- The response-composition loop of app.go 343-359, position by
position, with `i` the index of the first remaining position. -/
def composeAux (urls : List String) (i : Nat) :
    List (List URLThreat) → Option (List ThreatMatch)
  | [] => some []
  | uts :: rest =>
    match composeGroup urls i uts with
    | none => none
    | some g =>
      match composeAux urls (i + 1) rest with
      | none => none
      | some ms => some (g ++ ms)

/-- The full `Matches` list of the FindThreatMatchesResponse composed at
app.go 341-359 from the input URLs and the classifier's reply;
`none` models an index-out-of-range panic. -/
def composeResponse (urls : List String) (utss : List (List URLThreat)) :
    Option (List ThreatMatch) :=
  composeAux urls 0 utss

/-- Outcome of the lookup handler. -/
inductive LookupsResult where
  | httpError (status : Nat) (body : String)
  | response (mime : String) (matchList : List ThreatMatch)
  | outOfRange
deriving DecidableEq, Repr

/-- The `/v4/threatMatches:find` handler (app.go 306-366), with the
request already split into its method, encoding selectors and decoded
body, and the classifier's `LookupURLs` passed as a function.  Body
decode failures of the external jsonpb/proto libraries are outside the
embedding; every claim below concerns requests that decode. -/
def serveLookups (method altQ contentType : String)
    (pbReq : FindThreatMatchesRequest)
    (classifier : List String → Except String (List (List URLThreat))) :
    LookupsResult :=
  if method ≠ "POST" then LookupsResult.httpError 400 "invalid method"
  else
    match negotiateMime altQ contentType with
    | Except.error e => LookupsResult.httpError 400 e
    | Except.ok mime =>
      let tes := pbReq.threatInfo.threatEntries
      let urls := tes.map ThreatEntry.url
      if tes.any (fun e => e.url == "" || e.hash.length != 0) then
        LookupsResult.httpError 400 "only ThreatEntry.Url may be set"
      else
        match classifier urls with
        | Except.error e => LookupsResult.httpError 500 e
        | Except.ok utss =>
          match composeResponse urls utss with
          | none => LookupsResult.outOfRange
          | some ms => LookupsResult.response mime ms

/-- Outcome of the lists handler. -/
inductive ListsResult where
  | httpError (status : Nat) (body : String)
  | response (mime : String) (lists : List ThreatListDescriptor)
deriving DecidableEq, Repr

/-- Whether a lists outcome is a successful (non-error) response. -/
def ListsResult.isResponse : ListsResult → Bool
  | ListsResult.response _ _ => true
  | ListsResult.httpError _ _ => false

/-- Modelled from the spec: the safebrowsing package's
`DefaultThreatLists` value is not under src/; the package documentation
(app.go 131-145) lists the default set as MALWARE, SOCIAL_ENGINEERING
and UNWANTED_SOFTWARE, in that order, each on ANY_PLATFORM with entry
type URL.  The numeric enum values are opaque here; only distinctness
and order matter. -/
def DefaultThreatLists : List ThreatDescriptor :=
  [ { threatType := 2, platformType := 6, threatEntryType := 3 }
  , { threatType := 3, platformType := 6, threatEntryType := 3 }
  , { threatType := 4, platformType := 6, threatEntryType := 3 } ]

/-- Conversion at app.go 395-399 from a configured descriptor to the
response's ThreatListDescriptor message. -/
def toListDescriptor (td : ThreatDescriptor) : ThreatListDescriptor :=
  { threatType := td.threatType
    platformType := td.platformType
    threatEntryType := td.threatEntryType }

/-- The `/v4/threatLists` handler (app.go 372-407).  The `alt` switch
(372-382) runs before the method check (383-386); only "", "json" and
"proto" are accepted and the Content-Type header is never consulted
(`contentType` is deliberately unused, mirroring the source).  With a
recognized mime the marshal step cannot hit its error branch, so no 500
arises here. -/
def serveLists (method altQ contentType : String)
    (confThreatLists : List ThreatDescriptor) : ListsResult :=
  match (if altQ = "" ∨ altQ = "json" then some mimeJSON
         else if altQ = "proto" then some mimeProto
         else none) with
  | none => ListsResult.httpError 400 "invalid request type"
  | some mime =>
    if method ≠ "GET" then ListsResult.httpError 400 "invalid method"
    else
      let tls := if confThreatLists.length ≠ 0 then confThreatLists
                 else DefaultThreatLists
      ListsResult.response mime (tls.map toListDescriptor)

/-- safebrowsing.Stats counters (status endpoint body). -/
structure Stats where
  queriesByDatabase : Nat
  queriesByCache : Nat
  queriesByAPI : Nat
  queriesFail : Nat
deriving DecidableEq, Repr

/-- The anonymous `{Stats, Error}` struct marshalled by `serveStatus`
(app.go 290-293). -/
structure StatusBody where
  stats : Stats
  error : String
deriving DecidableEq, Repr

/-- Outcome of the status handler. -/
inductive StatusResult where
  | response (status : Nat) (body : StatusBody)
  | httpError (status : Nat) (body : String)
deriving DecidableEq, Repr

/-- The `/status` handler (app.go 284-300).  `sbErr` is the classifier's
reported error (`sb.Status()`), `encodeErr` abstracts the external
`json.Marshal` call's failure possibility — the only error branch of the
handler.  A successful write carries HTTP 200 (Go's implicit WriteHeader). -/
def serveStatus (stats : Stats) (sbErr : Option String)
    (encodeErr : Option String) : StatusResult :=
  let errStr := match sbErr with
    | none => ""
    | some e => e
  match encodeErr with
  | some e => StatusResult.httpError 500 e
  | none => StatusResult.response 200 { stats := stats, error := errStr }

/-! ### Concrete fixtures used in counterexamples and witnesses -/

/-- Fixture: a concrete descriptor triple. -/
def tdA : ThreatDescriptor := { threatType := 1, platformType := 2, threatEntryType := 3 }

/-- Fixture: a classifier result carrying `tdA`. -/
def utA : URLThreat := { pattern := "bad/p", threatDescriptor := tdA }

/-- Fixture: the match composed for URL "a" and triple `tdA`. -/
def mA : ThreatMatch := mkMatch "a" tdA

/-- Fixture: a valid request querying the same URL "a" at two positions. -/
def reqAA : FindThreatMatchesRequest :=
  { threatInfo :=
      { threatTypes := []
        platformTypes := []
        threatEntryTypes := []
        threatEntries := [{ url := "a", hash := [] }, { url := "a", hash := [] }] } }

/-- Fixture: a request whose single entry has an empty URL. -/
def reqBad : FindThreatMatchesRequest :=
  { threatInfo :=
      { threatTypes := []
        platformTypes := []
        threatEntryTypes := []
        threatEntries := [{ url := "", hash := [] }] } }

/-- Fixture: a classifier replying with the same triple at both positions. -/
def cDup : List String → Except String (List (List URLThreat)) :=
  fun _ => Except.ok [[utA], [utA]]

/-- Fixture: a configuration subscribing to one list. -/
def confOne : List ThreatDescriptor :=
  [{ threatType := 7, platformType := 8, threatEntryType := 9 }]

/-! ### Wire codec

Modelled from the spec: the wire codecs themselves (jsonpb and proto
marshaling) and the generated message types live outside src/, so they
are modelled from spec section 4.2: the structured-text encoding is
self-describing and field-name based, the binary encoding is the compact
positional encoding of the same schema, and both are exact inverses of
their decoders on every message.  Wire items are modelled as tokens. -/

/-- Modelled from the spec: one wire token (a number or a string). -/
inductive Tok where
  | nat : Nat → Tok
  | str : String → Tok
deriving DecidableEq, Repr

/-- Modelled from the spec: length-prefixed encoding of a repeated field. -/
def encList (enc : α → List Tok) (xs : List α) : List Tok :=
  Tok.nat xs.length :: (xs.map enc).flatten

/-- Modelled from the spec: encoding of one integer field value. -/
def encNat (n : Nat) : List Tok := [Tok.nat n]

/-- Decoder for one integer field value. -/
def decNat : List Tok → Option (Nat × List Tok)
  | Tok.nat n :: ts => some (n, ts)
  | _ => none

/-- Decoder for one string field value. -/
def decStr : List Tok → Option (String × List Tok)
  | Tok.str s :: ts => some (s, ts)
  | _ => none

/-- Decoder for a known number of repeated-field elements. -/
def decListAux (dec : List Tok → Option (α × List Tok)) :
    Nat → List Tok → Option (List α × List Tok)
  | 0, ts => some ([], ts)
  | n + 1, ts =>
    match dec ts with
    | none => none
    | some (x, ts1) =>
      match decListAux dec n ts1 with
      | none => none
      | some (xs, ts2) => some (x :: xs, ts2)

/-- Decoder for a length-prefixed repeated field. -/
def decList (dec : List Tok → Option (α × List Tok)) (ts : List Tok) :
    Option (List α × List Tok) :=
  match decNat ts with
  | none => none
  | some (n, ts1) => decListAux dec n ts1

/-- Modelled from the spec: binary (positional) encoding of a ThreatEntry. -/
def pEncEntry (e : ThreatEntry) : List Tok :=
  Tok.str e.url :: encList encNat e.hash

/-- Binary decoder for a ThreatEntry. -/
def pDecEntry (ts : List Tok) : Option (ThreatEntry × List Tok) :=
  match decStr ts with
  | none => none
  | some (u, ts1) =>
    match decList decNat ts1 with
    | none => none
    | some (h, ts2) => some ({ url := u, hash := h }, ts2)

/-- Modelled from the spec: binary encoding of a ThreatInfo. -/
def pEncInfo (ti : ThreatInfo) : List Tok :=
  encList encNat ti.threatTypes ++ encList encNat ti.platformTypes ++
    encList encNat ti.threatEntryTypes ++ encList pEncEntry ti.threatEntries

/-- Binary decoder for a ThreatInfo. -/
def pDecInfo (ts : List Tok) : Option (ThreatInfo × List Tok) :=
  match decList decNat ts with
  | none => none
  | some (tt, ts1) =>
    match decList decNat ts1 with
    | none => none
    | some (pt, ts2) =>
      match decList decNat ts2 with
      | none => none
      | some (et, ts3) =>
        match decList pDecEntry ts3 with
        | none => none
        | some (es, ts4) =>
          some ({ threatTypes := tt, platformTypes := pt,
                  threatEntryTypes := et, threatEntries := es }, ts4)

/-- Modelled from the spec: binary encoding of a ThreatMatch. -/
def pEncMatch (m : ThreatMatch) : List Tok :=
  pEncEntry m.threat ++ encNat m.threatType ++ encNat m.platformType ++
    encNat m.threatEntryType

/-- Binary decoder for a ThreatMatch. -/
def pDecMatch (ts : List Tok) : Option (ThreatMatch × List Tok) :=
  match pDecEntry ts with
  | none => none
  | some (e, ts1) =>
    match decNat ts1 with
    | none => none
    | some (tt, ts2) =>
      match decNat ts2 with
      | none => none
      | some (pt, ts3) =>
        match decNat ts3 with
        | none => none
        | some (et, ts4) =>
          some ({ threat := e, threatType := tt, platformType := pt,
                  threatEntryType := et }, ts4)

/-- Modelled from the spec: binary encoding of a ThreatListDescriptor. -/
def pEncDescr (d : ThreatListDescriptor) : List Tok :=
  encNat d.threatType ++ encNat d.platformType ++ encNat d.threatEntryType

/-- Binary decoder for a ThreatListDescriptor. -/
def pDecDescr (ts : List Tok) : Option (ThreatListDescriptor × List Tok) :=
  match decNat ts with
  | none => none
  | some (tt, ts1) =>
    match decNat ts1 with
    | none => none
    | some (pt, ts2) =>
      match decNat ts2 with
      | none => none
      | some (et, ts3) =>
        some ({ threatType := tt, platformType := pt, threatEntryType := et }, ts3)

/-- Modelled from the spec: the gateway's request/response message schema
as one sum. -/
inductive SBMessage where
  | findRequest : FindThreatMatchesRequest → SBMessage
  | findResponse : List ThreatMatch → SBMessage
  | listsResponse : List ThreatListDescriptor → SBMessage
deriving DecidableEq, Repr

/-- Modelled from the spec: binary encoding of a schema message, tagged
positionally. -/
def pEncMsg : SBMessage → List Tok
  | SBMessage.findRequest r => Tok.nat 0 :: pEncInfo r.threatInfo
  | SBMessage.findResponse ms => Tok.nat 1 :: encList pEncMatch ms
  | SBMessage.listsResponse ds => Tok.nat 2 :: encList pEncDescr ds

/-- Binary decoder for a whole schema message (consumes all tokens). -/
def pDecMsg (ts : List Tok) : Option SBMessage :=
  match ts with
  | Tok.nat 0 :: ts1 =>
    match pDecInfo ts1 with
    | some (ti, []) => some (SBMessage.findRequest { threatInfo := ti })
    | _ => none
  | Tok.nat 1 :: ts1 =>
    match decList pDecMatch ts1 with
    | some (ms, []) => some (SBMessage.findResponse ms)
    | _ => none
  | Tok.nat 2 :: ts1 =>
    match decList pDecDescr ts1 with
    | some (ds, []) => some (SBMessage.listsResponse ds)
    | _ => none
  | _ => none

/-- Modelled from the spec: structured-text (field-name based) encoding
of a ThreatEntry. -/
def jEncEntry (e : ThreatEntry) : List Tok :=
  Tok.str "url" :: Tok.str e.url :: Tok.str "hash" :: encList encNat e.hash

/-- Structured-text decoder for a ThreatEntry. -/
def jDecEntry (ts : List Tok) : Option (ThreatEntry × List Tok) :=
  match ts with
  | Tok.str "url" :: Tok.str u :: Tok.str "hash" :: ts1 =>
    match decList decNat ts1 with
    | none => none
    | some (h, ts2) => some ({ url := u, hash := h }, ts2)
  | _ => none

/-- Modelled from the spec: structured-text encoding of a ThreatInfo. -/
def jEncInfo (ti : ThreatInfo) : List Tok :=
  Tok.str "threatTypes" :: (encList encNat ti.threatTypes ++
    (Tok.str "platformTypes" :: (encList encNat ti.platformTypes ++
      (Tok.str "threatEntryTypes" :: (encList encNat ti.threatEntryTypes ++
        (Tok.str "threatEntries" :: encList jEncEntry ti.threatEntries))))))

/-- Structured-text decoder for a ThreatInfo. -/
def jDecInfo (ts : List Tok) : Option (ThreatInfo × List Tok) :=
  match ts with
  | Tok.str "threatTypes" :: ts0 =>
    match decList decNat ts0 with
    | none => none
    | some (tt, ts1) =>
      match ts1 with
      | Tok.str "platformTypes" :: ts1a =>
        match decList decNat ts1a with
        | none => none
        | some (pt, ts2) =>
          match ts2 with
          | Tok.str "threatEntryTypes" :: ts2a =>
            match decList decNat ts2a with
            | none => none
            | some (et, ts3) =>
              match ts3 with
              | Tok.str "threatEntries" :: ts3a =>
                match decList jDecEntry ts3a with
                | none => none
                | some (es, ts4) =>
                  some ({ threatTypes := tt, platformTypes := pt,
                          threatEntryTypes := et, threatEntries := es }, ts4)
              | _ => none
          | _ => none
      | _ => none
  | _ => none

/-- Modelled from the spec: structured-text encoding of a ThreatMatch. -/
def jEncMatch (m : ThreatMatch) : List Tok :=
  Tok.str "threat" :: (jEncEntry m.threat ++
    [Tok.str "threatType", Tok.nat m.threatType,
     Tok.str "platformType", Tok.nat m.platformType,
     Tok.str "threatEntryType", Tok.nat m.threatEntryType])

/-- Structured-text decoder for a ThreatMatch. -/
def jDecMatch (ts : List Tok) : Option (ThreatMatch × List Tok) :=
  match ts with
  | Tok.str "threat" :: ts0 =>
    match jDecEntry ts0 with
    | none => none
    | some (e, ts1) =>
      match ts1 with
      | Tok.str "threatType" :: Tok.nat tt :: Tok.str "platformType" :: Tok.nat pt ::
          Tok.str "threatEntryType" :: Tok.nat et :: ts2 =>
        some ({ threat := e, threatType := tt, platformType := pt,
                threatEntryType := et }, ts2)
      | _ => none
  | _ => none

/-- Modelled from the spec: structured-text encoding of a
ThreatListDescriptor. -/
def jEncDescr (d : ThreatListDescriptor) : List Tok :=
  [Tok.str "threatType", Tok.nat d.threatType,
   Tok.str "platformType", Tok.nat d.platformType,
   Tok.str "threatEntryType", Tok.nat d.threatEntryType]

/-- Structured-text decoder for a ThreatListDescriptor. -/
def jDecDescr (ts : List Tok) : Option (ThreatListDescriptor × List Tok) :=
  match ts with
  | Tok.str "threatType" :: Tok.nat tt :: Tok.str "platformType" :: Tok.nat pt ::
      Tok.str "threatEntryType" :: Tok.nat et :: ts1 =>
    some ({ threatType := tt, platformType := pt, threatEntryType := et }, ts1)
  | _ => none

/-- Modelled from the spec: structured-text encoding of a whole schema
message, tagged by the message name. -/
def jEncMsg : SBMessage → List Tok
  | SBMessage.findRequest r => Tok.str "FindThreatMatchesRequest" :: jEncInfo r.threatInfo
  | SBMessage.findResponse ms => Tok.str "FindThreatMatchesResponse" :: encList jEncMatch ms
  | SBMessage.listsResponse ds => Tok.str "ListThreatListsResponse" :: encList jEncDescr ds

/-- Structured-text decoder for a whole schema message (consumes all
tokens). -/
def jDecMsg (ts : List Tok) : Option SBMessage :=
  match ts with
  | Tok.str "FindThreatMatchesRequest" :: ts1 =>
    match jDecInfo ts1 with
    | some (ti, []) => some (SBMessage.findRequest { threatInfo := ti })
    | _ => none
  | Tok.str "FindThreatMatchesResponse" :: ts1 =>
    match decList jDecMatch ts1 with
    | some (ms, []) => some (SBMessage.findResponse ms)
    | _ => none
  | Tok.str "ListThreatListsResponse" :: ts1 =>
    match decList jDecDescr ts1 with
    | some (ds, []) => some (SBMessage.listsResponse ds)
    | _ => none
  | _ => none

/-! ### Helper lemmas about the dedup key set -/

theorem insertKey_nodup (ks : List ThreatDescriptor) (k : ThreatDescriptor)
    (h : ks.Nodup) : (insertKey ks k).Nodup := by
  unfold insertKey
  split
  · exact h
  · next hk => simp [List.nodup_append, h, hk]

theorem insertKey_mem (ks : List ThreatDescriptor) (k x : ThreatDescriptor) :
    x ∈ insertKey ks k ↔ x ∈ ks ∨ x = k := by
  unfold insertKey
  split
  · next hk =>
    constructor
    · exact fun hx => Or.inl hx
    · rintro (hx | rfl)
      · exact hx
      · exact hk
  · simp

theorem foldl_insertKey_nodup :
    ∀ (l : List URLThreat) (ks : List ThreatDescriptor), ks.Nodup →
      (l.foldl (fun a ut => insertKey a ut.threatDescriptor) ks).Nodup
  | [], _, h => h
  | ut :: l, ks, h =>
    foldl_insertKey_nodup l (insertKey ks ut.threatDescriptor)
      (insertKey_nodup ks ut.threatDescriptor h)

theorem foldl_insertKey_mem :
    ∀ (l : List URLThreat) (ks : List ThreatDescriptor) (x : ThreatDescriptor),
      x ∈ l.foldl (fun a ut => insertKey a ut.threatDescriptor) ks ↔
        x ∈ ks ∨ ∃ ut ∈ l, ut.threatDescriptor = x
  | [], ks, x => by simp
  | ut :: l, ks, x => by
    rw [List.foldl_cons, foldl_insertKey_mem l (insertKey ks ut.threatDescriptor) x,
      insertKey_mem]
    constructor
    · rintro ((hx | rfl) | ⟨u, hu, rfl⟩)
      · exact Or.inl hx
      · exact Or.inr ⟨ut, List.mem_cons_self ut l, rfl⟩
      · exact Or.inr ⟨u, List.mem_cons_of_mem ut hu, rfl⟩
    · rintro (hx | ⟨u, hu, rfl⟩)
      · exact Or.inl (Or.inl hx)
      · rcases List.mem_cons.mp hu with rfl | hu
        · exact Or.inl (Or.inr rfl)
        · exact Or.inr ⟨u, hu, rfl⟩

theorem mapKeys_nodup (uts : List URLThreat) : (mapKeys uts).Nodup :=
  foldl_insertKey_nodup uts [] List.nodup_nil

theorem mapKeys_mem (uts : List URLThreat) (x : ThreatDescriptor) :
    x ∈ mapKeys uts ↔ ∃ ut ∈ uts, ut.threatDescriptor = x := by
  rw [mapKeys, foldl_insertKey_mem]
  simp

/-! ### Helper lemmas about response composition -/

theorem composeTds_of_getElem (urls : List String) (i : Nat) (u : String)
    (hu : urls[i]? = some u) :
    ∀ tds : List ThreatDescriptor,
      composeTds urls i tds = some (tds.map (mkMatch u))
  | [] => rfl
  | td :: tds => by
    simp [composeTds, hu, composeTds_of_getElem urls i u hu tds]

theorem composeTds_mem (urls : List String) (i : Nat) :
    ∀ (tds : List ThreatDescriptor) (g : List ThreatMatch),
      composeTds urls i tds = some g → ∀ m ∈ g,
        ∃ u td, urls[i]? = some u ∧ td ∈ tds ∧ m = mkMatch u td
  | [], g, h, m, hm => by
    simp [composeTds] at h
    subst h
    simp at hm
  | td :: tds, g, h, m, hm => by
    rw [composeTds] at h
    cases hu : urls[i]? with
    | none => rw [hu] at h; exact absurd h (by simp)
    | some u =>
      rw [hu] at h
      cases hrec : composeTds urls i tds with
      | none => rw [hrec] at h; exact absurd h (by simp)
      | some ms =>
        rw [hrec] at h
        simp at h
        subst h
        rcases List.mem_cons.mp hm with rfl | hm
        · exact ⟨u, td, rfl, List.mem_cons_self td tds, rfl⟩
        · rcases composeTds_mem urls i tds ms hrec m hm with ⟨u1, td1, hu1, htd1, rfl⟩
          exact ⟨u1, td1, hu.symm.trans hu1, List.mem_cons_of_mem td htd1, rfl⟩

theorem composeGroup_nil (urls : List String) (i : Nat) :
    composeGroup urls i [] = some [] := rfl

theorem composeAux_struct (urls : List String) :
    ∀ (utss : List (List URLThreat)) (i : Nat) (ms : List ThreatMatch),
      composeAux urls i utss = some ms →
      ∃ gs : List (List ThreatMatch), ms = gs.flatten ∧ gs.length = utss.length ∧
        ∀ j : Nat, composeGroup urls (i + j) (utss[j]?.getD []) = some (gs[j]?.getD [])
  | [], i, ms, h => by
    refine ⟨[], ?_, rfl, ?_⟩
    · simpa [composeAux] using h.symm
    · intro j
      simp [composeGroup_nil]
  | uts :: rest, i, ms, h => by
    rw [composeAux] at h
    cases hg : composeGroup urls i uts with
    | none => rw [hg] at h; exact absurd h (by simp)
    | some g =>
      rw [hg] at h
      cases hr : composeAux urls (i + 1) rest with
      | none => rw [hr] at h; exact absurd h (by simp)
      | some ms1 =>
        rw [hr] at h
        simp at h
        obtain ⟨gs, hflat, hlen, hall⟩ := composeAux_struct urls rest (i + 1) ms1 hr
        refine ⟨g :: gs, ?_, by simp [hlen], ?_⟩
        · rw [← h, hflat]
          simp
        · intro j
          cases j with
          | zero => simpa using hg
          | succ j =>
            have := hall j
            rw [Nat.add_succ, ← Nat.succ_add]
            simpa using this

theorem mkMatch_inj (u : String) (td td1 : ThreatDescriptor) :
    mkMatch u td = mkMatch u td1 ↔ td = td1 := by
  cases td
  cases td1
  simp [mkMatch]

theorem count_map_mkMatch (u : String) (td : ThreatDescriptor) :
    ∀ tds : List ThreatDescriptor,
      (tds.map (mkMatch u)).count (mkMatch u td) = tds.count td
  | [] => rfl
  | td1 :: tds => by
    have ih := count_map_mkMatch u td tds
    simp only [List.map_cons, List.count_cons, ih]
    by_cases h : td1 = td
    · subst h
      simp
    · have h1 : ¬ mkMatch u td1 = mkMatch u td := fun hc => h ((mkMatch_inj u td1 td).mp hc)
      simp [h, h1]

theorem composeAux_isSome (urls : List String) :
    ∀ (utss : List (List URLThreat)) (i : Nat), i + utss.length ≤ urls.length →
      (composeAux urls i utss).isSome = true
  | [], _, _ => rfl
  | uts :: rest, i, h => by
    have hi : i < urls.length := by
      have := h
      simp [List.length_cons] at this
      omega
    have hu : urls[i]? = some urls[i] := List.getElem?_eq_getElem hi
    rw [composeAux, composeGroup, composeTds_of_getElem urls i urls[i] hu (mapKeys uts)]
    have hrec := composeAux_isSome urls rest (i + 1) (by simp at h ⊢; omega)
    cases hr : composeAux urls (i + 1) rest with
    | none => rw [hr] at hrec; simp at hrec
    | some ms => simp

/-- Inversion of the lookup handler: a successful response comes from a
successful classifier call and a panic-free composition over the
request's URL list. -/
theorem serveLookups_response_inv (method altQ contentType : String)
    (pbReq : FindThreatMatchesRequest)
    (classifier : List String → Except String (List (List URLThreat)))
    (mime : String) (ms : List ThreatMatch)
    (h : serveLookups method altQ contentType pbReq classifier =
      LookupsResult.response mime ms) :
    ∃ utss, classifier (pbReq.threatInfo.threatEntries.map ThreatEntry.url) =
        Except.ok utss ∧
      composeResponse (pbReq.threatInfo.threatEntries.map ThreatEntry.url) utss =
        some ms := by
  rw [serveLookups] at h
  split at h
  · exact absurd h (by simp)
  · split at h
    · exact absurd h (by simp)
    · simp only [] at h
      split at h
      · exact absurd h (by simp)
      · split at h
        · exact absurd h (by simp)
        · next utss hc =>
          split at h
          · exact absurd h (by simp)
          · next ms1 hcomp =>
            simp only [LookupsResult.response.injEq] at h
            exact ⟨utss, hc, by rw [hcomp, h.2]⟩

/-! ### Round-trip lemmas for the wire codec -/

theorem decNat_enc (n : Nat) (rest : List Tok) :
    decNat (encNat n ++ rest) = some (n, rest) := rfl

theorem decListAux_enc {α : Type} (dec : List Tok → Option (α × List Tok))
    (enc : α → List Tok)
    (hdec : ∀ x rest, dec (enc x ++ rest) = some (x, rest)) :
    ∀ (xs : List α) (rest : List Tok),
      decListAux dec xs.length ((xs.map enc).flatten ++ rest) = some (xs, rest)
  | [], rest => rfl
  | x :: xs, rest => by
    simp only [List.map_cons, List.flatten_cons, List.length_cons, List.append_assoc,
      decListAux, hdec x ((xs.map enc).flatten ++ rest),
      decListAux_enc dec enc hdec xs rest]

theorem decList_enc {α : Type} (dec : List Tok → Option (α × List Tok))
    (enc : α → List Tok)
    (hdec : ∀ x rest, dec (enc x ++ rest) = some (x, rest))
    (xs : List α) (rest : List Tok) :
    decList dec (encList enc xs ++ rest) = some (xs, rest) := by
  rw [encList]
  simp only [List.cons_append, decList, decNat, decListAux_enc dec enc hdec xs rest]

theorem decList_encNat (xs : List Nat) (rest : List Tok) :
    decList decNat (encList encNat xs ++ rest) = some (xs, rest) :=
  decList_enc decNat encNat (fun _ _ => rfl) xs rest

theorem pDecEntry_enc (e : ThreatEntry) (rest : List Tok) :
    pDecEntry (pEncEntry e ++ rest) = some (e, rest) := by
  cases e with
  | mk u h =>
    simp only [pEncEntry, List.cons_append, pDecEntry, decStr, decList_encNat]

theorem pDecInfo_enc (ti : ThreatInfo) (rest : List Tok) :
    pDecInfo (pEncInfo ti ++ rest) = some (ti, rest) := by
  cases ti with
  | mk tt pt et es =>
    simp only [pEncInfo, List.append_assoc, pDecInfo, decList_encNat,
      decList_enc pDecEntry pEncEntry pDecEntry_enc]

theorem pDecMatch_enc (m : ThreatMatch) (rest : List Tok) :
    pDecMatch (pEncMatch m ++ rest) = some (m, rest) := by
  cases m with
  | mk e tt pt et =>
    simp only [pEncMatch, List.append_assoc, pDecMatch, pDecEntry_enc, decNat_enc]

theorem pDecDescr_enc (d : ThreatListDescriptor) (rest : List Tok) :
    pDecDescr (pEncDescr d ++ rest) = some (d, rest) := by
  cases d with
  | mk tt pt et =>
    simp only [pEncDescr, List.append_assoc, pDecDescr, decNat_enc]

theorem pDecMsg_enc (m : SBMessage) : pDecMsg (pEncMsg m) = some m := by
  cases m with
  | findRequest r =>
    cases r with
    | mk ti =>
      have h := pDecInfo_enc ti []
      rw [List.append_nil] at h
      simp [pEncMsg, pDecMsg, h]
  | findResponse ms =>
    have h := decList_enc pDecMatch pEncMatch pDecMatch_enc ms []
    rw [List.append_nil] at h
    simp [pEncMsg, pDecMsg, h]
  | listsResponse ds =>
    have h := decList_enc pDecDescr pEncDescr pDecDescr_enc ds []
    rw [List.append_nil] at h
    simp [pEncMsg, pDecMsg, h]

theorem jDecEntry_enc (e : ThreatEntry) (rest : List Tok) :
    jDecEntry (jEncEntry e ++ rest) = some (e, rest) := by
  cases e with
  | mk u h =>
    simp only [jEncEntry, List.cons_append, jDecEntry, decList_encNat]

theorem jDecInfo_enc (ti : ThreatInfo) (rest : List Tok) :
    jDecInfo (jEncInfo ti ++ rest) = some (ti, rest) := by
  cases ti with
  | mk tt pt et es =>
    simp only [jEncInfo, List.cons_append, List.append_assoc, jDecInfo, decList_encNat,
      decList_enc jDecEntry jEncEntry jDecEntry_enc]

theorem jDecMatch_enc (m : ThreatMatch) (rest : List Tok) :
    jDecMatch (jEncMatch m ++ rest) = some (m, rest) := by
  cases m with
  | mk e tt pt et =>
    simp only [jEncMatch, List.cons_append, List.append_assoc, jDecMatch, jDecEntry_enc,
      List.nil_append]

theorem jDecDescr_enc (d : ThreatListDescriptor) (rest : List Tok) :
    jDecDescr (jEncDescr d ++ rest) = some (d, rest) := by
  cases d with
  | mk tt pt et =>
    simp only [jEncDescr, List.cons_append, jDecDescr, List.nil_append]

theorem jDecMsg_enc (m : SBMessage) : jDecMsg (jEncMsg m) = some m := by
  cases m with
  | findRequest r =>
    cases r with
    | mk ti =>
      have h := jDecInfo_enc ti []
      rw [List.append_nil] at h
      simp [jEncMsg, jDecMsg, h]
  | findResponse ms =>
    have h := decList_enc jDecMatch jEncMatch jDecMatch_enc ms []
    rw [List.append_nil] at h
    simp [jEncMsg, jDecMsg, h]
  | listsResponse ds =>
    have h := decList_enc jDecDescr jEncDescr jDecDescr_enc ds []
    rw [List.append_nil] at h
    simp [jEncMsg, jDecMsg, h]

/-! ### Claim theorems -/

/-- C5: for every request to /status, whatever the classifier's error
state, the handler answers 200 with a structured-text body whose Error
field is the classifier's message (empty when it reports none); the
handler's own encode failure is the only condition yielding a 500.  The
conclusion holds for every `stats` and every `sbErr`, so a
classifier-reported error is never turned into an HTTP error. -/
theorem C5_status_always_200 (stats : Stats) (sbErr : Option String) :
    serveStatus stats sbErr none =
      StatusResult.response 200 { stats := stats, error := sbErr.getD "" } ∧
    ∀ e, serveStatus stats sbErr (some e) = StatusResult.httpError 500 e := by
  constructor
  · cases sbErr <;> rfl
  · intro e
    cases sbErr <;> rfl

/-- C9: encoding any message of the gateway's request/response schema
with the structured-text encoding and decoding the result gives back the
original message, and likewise for the binary encoding. -/
theorem C9_roundtrip (m : SBMessage) :
    jDecMsg (jEncMsg m) = some m ∧ pDecMsg (pEncMsg m) = some m :=
  ⟨jDecMsg_enc m, pDecMsg_enc m⟩

/-- C10: whenever the classifier's reply has at most as many positions
as there are queried URLs, composing the response never reads
`urls[i]` out of range (no panic, modelled by `none`); and the
precondition really is what prevents the failure — a reply longer than
the URL list reaches the out-of-range access, as the second conjunct
shows on a concrete input. -/
theorem C10_index_in_bounds (urls : List String) (utss : List (List URLThreat))
    (h : utss.length ≤ urls.length) :
    (composeResponse urls utss).isSome = true ∧
    composeResponse ["a"] [[utA], [utA]] = none := by
  constructor
  · exact composeAux_isSome urls utss 0 (by omega)
  · rfl

/-- C10 witness: the theorem applied at a concrete reply shorter than
the URL list. -/
theorem C10_index_in_bounds_witness :
    (composeResponse ["a", "b"] [[utA]]).isSome = true ∧
    composeResponse ["a"] [[utA], [utA]] = none :=
  C10_index_in_bounds ["a", "b"] [[utA]] (by decide)

/-- C2: a decoded lookup request containing an entry with an empty URL
or with hash bytes is answered 400 "only ThreatEntry.Url may be set",
and — since the conclusion holds for every classifier — the classifier
is never consulted; the single invalid entry rejects the whole batch. -/
theorem C2_invalid_entry_rejected (altQ contentType : String)
    (pbReq : FindThreatMatchesRequest) (mime : String)
    (hm : negotiateMime altQ contentType = Except.ok mime)
    (hbad : ∃ e ∈ pbReq.threatInfo.threatEntries, e.url = "" ∨ e.hash ≠ []) :
    ∀ classifier, serveLookups "POST" altQ contentType pbReq classifier =
      LookupsResult.httpError 400 "only ThreatEntry.Url may be set" := by
  intro classifier
  have hany : (pbReq.threatInfo.threatEntries.any
      (fun e => e.url == "" || e.hash.length != 0)) = true := by
    rcases hbad with ⟨e, he, hcase⟩
    apply List.any_eq_true.mpr
    refine ⟨e, he, ?_⟩
    rcases hcase with h1 | h1
    · simp [h1]
    · have : e.hash.length ≠ 0 := by
        intro h0
        exact h1 (List.length_eq_zero.mp h0)
      simp [this]
  rw [serveLookups, hm]
  simp [hany]

/-- C2 witness: a POST with a successfully negotiated encoding whose
single entry has an empty URL is rejected with the fixed message. -/
theorem C2_invalid_entry_rejected_witness :
    serveLookups "POST" "json" "" reqBad cDup =
      LookupsResult.httpError 400 "only ThreatEntry.Url may be set" :=
  C2_invalid_entry_rejected "json" "" reqBad mimeJSON (by rfl)
    ⟨{ url := "", hash := [] }, by simp [reqBad], Or.inl rfl⟩ cDup

/-- C1 counterexample: the dedup invariant is per input position, not
per URL string.  Querying the same URL "a" at two positions while the
classifier reports the identical triple at both yields a response
carrying the (URL, triple) pair twice. -/
theorem C1_counterexample :
    serveLookups "POST" "json" "" reqAA cDup =
      LookupsResult.response mimeJSON [mA, mA] ∧
    ([mA, mA].count mA = 2) := by
  constructor
  · rfl
  · rfl

/-- C1 (amended): within the group of matches composed for one input
position, every triple the classifier returned for that position occurs
exactly once, even when the classifier reported it several times; a URL
appearing at several input positions may still repeat a triple across
groups. -/
theorem C1_dedup_per_position (method altQ contentType : String)
    (pbReq : FindThreatMatchesRequest)
    (classifier : List String → Except String (List (List URLThreat)))
    (mime : String) (ms : List ThreatMatch)
    (h : serveLookups method altQ contentType pbReq classifier =
      LookupsResult.response mime ms) :
    ∃ (utss : List (List URLThreat)) (gs : List (List ThreatMatch)),
      classifier (pbReq.threatInfo.threatEntries.map ThreatEntry.url) =
        Except.ok utss ∧
      ms = gs.flatten ∧ gs.length = utss.length ∧
      ∀ (j : Nat) (u : String) (td : ThreatDescriptor),
        (pbReq.threatInfo.threatEntries.map ThreatEntry.url)[j]? = some u →
        (gs[j]?.getD []).count (mkMatch u td) =
          if td ∈ (utss[j]?.getD []).map URLThreat.threatDescriptor then 1
          else 0 := by
  obtain ⟨utss, hc, hcomp⟩ :=
    serveLookups_response_inv method altQ contentType pbReq classifier mime ms h
  obtain ⟨gs, hflat, hlen, hall⟩ :=
    composeAux_struct (pbReq.threatInfo.threatEntries.map ThreatEntry.url) utss 0 ms hcomp
  refine ⟨utss, gs, hc, hflat, hlen, ?_⟩
  intro j u td hu
  have hj := hall j
  rw [Nat.zero_add] at hj
  rw [composeGroup,
    composeTds_of_getElem (pbReq.threatInfo.threatEntries.map ThreatEntry.url) j u hu] at hj
  have hg : gs[j]?.getD [] = (mapKeys (utss[j]?.getD [])).map (mkMatch u) :=
    (Option.some.inj hj).symm
  rw [hg, count_map_mkMatch, List.count_eq_of_nodup (mapKeys_nodup _)]
  by_cases hmem : td ∈ mapKeys (utss[j]?.getD [])
  · rw [if_pos hmem, if_pos]
    rcases (mapKeys_mem _ td).mp hmem with ⟨ut, hut, rfl⟩
    exact List.mem_map_of_mem URLThreat.threatDescriptor hut
  · rw [if_neg hmem, if_neg]
    intro hcon
    rcases List.mem_map.mp hcon with ⟨ut, hut, hd⟩
    exact hmem ((mapKeys_mem _ td).mpr ⟨ut, hut, hd⟩)

/-- C1 witness: the amended per-position dedup statement instantiated at
a concrete duplicated query. -/
theorem C1_dedup_per_position_witness :
    ∃ (utss : List (List URLThreat)) (gs : List (List ThreatMatch)),
      cDup (reqAA.threatInfo.threatEntries.map ThreatEntry.url) = Except.ok utss ∧
      ([mA, mA] : List ThreatMatch) = gs.flatten ∧ gs.length = utss.length ∧
      ∀ (j : Nat) (u : String) (td : ThreatDescriptor),
        (reqAA.threatInfo.threatEntries.map ThreatEntry.url)[j]? = some u →
        (gs[j]?.getD []).count (mkMatch u td) =
          if td ∈ (utss[j]?.getD []).map URLThreat.threatDescriptor then 1
          else 0 :=
  C1_dedup_per_position "POST" "json" "" reqAA cDup mimeJSON [mA, mA] (by rfl)

/-- C8: in every lookup response, each match emitted for input position
j carries the queried URL of position j in its Threat field (echoing the
query input), and the per-position groups appear in the response in
input order (`ms` is the concatenation of the groups, position by
position). -/
theorem C8_echo_and_order (method altQ contentType : String)
    (pbReq : FindThreatMatchesRequest)
    (classifier : List String → Except String (List (List URLThreat)))
    (mime : String) (ms : List ThreatMatch)
    (h : serveLookups method altQ contentType pbReq classifier =
      LookupsResult.response mime ms) :
    ∃ (utss : List (List URLThreat)) (gs : List (List ThreatMatch)),
      classifier (pbReq.threatInfo.threatEntries.map ThreatEntry.url) =
        Except.ok utss ∧
      ms = gs.flatten ∧ gs.length = utss.length ∧
      ∀ (j : Nat), ∀ m ∈ gs[j]?.getD [], ∃ u,
        (pbReq.threatInfo.threatEntries.map ThreatEntry.url)[j]? = some u ∧
        m.threat = { url := u, hash := [] } := by
  obtain ⟨utss, hc, hcomp⟩ :=
    serveLookups_response_inv method altQ contentType pbReq classifier mime ms h
  obtain ⟨gs, hflat, hlen, hall⟩ :=
    composeAux_struct (pbReq.threatInfo.threatEntries.map ThreatEntry.url) utss 0 ms hcomp
  refine ⟨utss, gs, hc, hflat, hlen, ?_⟩
  intro j m hm
  have hj := hall j
  rw [Nat.zero_add, composeGroup] at hj
  rcases composeTds_mem (pbReq.threatInfo.threatEntries.map ThreatEntry.url) j
      (mapKeys (utss[j]?.getD [])) (gs[j]?.getD []) hj m hm with ⟨u, td, hu, _, rfl⟩
  exact ⟨u, hu, rfl⟩

/-- C8 witness: the echo-and-order statement instantiated at a concrete
query. -/
theorem C8_echo_and_order_witness :
    ∃ (utss : List (List URLThreat)) (gs : List (List ThreatMatch)),
      cDup (reqAA.threatInfo.threatEntries.map ThreatEntry.url) = Except.ok utss ∧
      ([mA, mA] : List ThreatMatch) = gs.flatten ∧ gs.length = utss.length ∧
      ∀ (j : Nat), ∀ m ∈ gs[j]?.getD [], ∃ u,
        (reqAA.threatInfo.threatEntries.map ThreatEntry.url)[j]? = some u ∧
        m.threat = { url := u, hash := [] } :=
  C8_echo_and_order "POST" "json" "" reqAA cDup mimeJSON [mA, mA] (by rfl)

/-- C3 counterexample: a resulting selector value of "" (alt absent and
empty Content-Type) does not select the structured-text encoding as the
claim states; it is rejected with 400 "invalid interchange format". -/
theorem C3_counterexample :
    negotiateMime "" "" ≠ Except.ok mimeJSON ∧
    serveLookups "POST" "" "" reqAA cDup =
      LookupsResult.httpError 400 "invalid interchange format" := by
  constructor
  · intro hcon
    exact Except.noConfusion hcon
  · rfl

/-- C3 (amended): the outbound encoding is chosen from the `alt` query
parameter, falling back to the Content-Type header when `alt` is empty;
the resulting values "json" and "application/json" select the
structured-text encoding, "proto" and "application/x-protobuf" select
the binary encoding, and any other resulting value — including the empty
string — makes the lookup handler respond 400 with the fixed message
"invalid interchange format". -/
theorem C3_amended_selection (altQ contentType : String) :
    ((if altQ = "" then contentType else altQ) ∈ ["json", mimeJSON] →
      negotiateMime altQ contentType = Except.ok mimeJSON) ∧
    ((if altQ = "" then contentType else altQ) ∈ ["proto", mimeProto] →
      negotiateMime altQ contentType = Except.ok mimeProto) ∧
    ((if altQ = "" then contentType else altQ) ∉ ["json", mimeJSON, "proto", mimeProto] →
      negotiateMime altQ contentType = Except.error "invalid interchange format" ∧
      ∀ (pbReq : FindThreatMatchesRequest)
        (classifier : List String → Except String (List (List URLThreat))),
        serveLookups "POST" altQ contentType pbReq classifier =
          LookupsResult.httpError 400 "invalid interchange format") := by
  refine ⟨?_, ?_, ?_⟩
  · intro h
    have h1 : (if altQ = "" then contentType else altQ) = "json" ∨
        (if altQ = "" then contentType else altQ) = mimeJSON := by simpa using h
    simp only [negotiateMime]
    rw [if_pos h1]
  · intro h
    have h1 : (if altQ = "" then contentType else altQ) = "proto" ∨
        (if altQ = "" then contentType else altQ) = mimeProto := by simpa using h
    have h2 : ¬((if altQ = "" then contentType else altQ) = "json" ∨
        (if altQ = "" then contentType else altQ) = mimeJSON) := by
      rcases h1 with h1 | h1 <;> rw [h1] <;> simp [mimeJSON, mimeProto]
    simp only [negotiateMime]
    rw [if_neg h2, if_pos h1]
  · intro hnot
    simp only [List.mem_cons, List.not_mem_nil, or_false, not_or] at hnot
    obtain ⟨h1, h2, h3, h4⟩ := hnot
    have herr : negotiateMime altQ contentType =
        Except.error "invalid interchange format" := by
      simp only [negotiateMime]
      rw [if_neg (not_or.mpr ⟨h1, h2⟩), if_neg (not_or.mpr ⟨h3, h4⟩)]
    refine ⟨herr, ?_⟩
    intro pbReq classifier
    rw [serveLookups, herr]
    simp

/-- C3 witness: each selection branch of the amended statement exercised
at a concrete selector, including the rejected empty value. -/
theorem C3_amended_selection_witness :
    negotiateMime "json" "" = Except.ok mimeJSON ∧
    negotiateMime "proto" "" = Except.ok mimeProto ∧
    negotiateMime "" "" = Except.error "invalid interchange format" ∧
    serveLookups "POST" "" "" reqAA cDup =
      LookupsResult.httpError 400 "invalid interchange format" :=
  ⟨(C3_amended_selection "json" "").1 (by decide),
   (C3_amended_selection "proto" "").2.1 (by decide),
   ((C3_amended_selection "" "").2.2 (by decide)).1,
   ((C3_amended_selection "" "").2.2 (by decide)).2 reqAA cDup⟩

/-- C4 counterexample: the list endpoint does not choose its encoding
the way the lookup endpoint does.  The two full content-type strings are
rejected as `alt` values (with message "invalid request type", not
"invalid interchange format"), and an empty `alt` selects the
structured-text encoding directly instead of falling back to the
request's Content-Type header (here a binary Content-Type still yields a
structured-text response). -/
theorem C4_counterexample :
    serveLists "GET" "application/json" "" [] =
      ListsResult.httpError 400 "invalid request type" ∧
    serveLists "GET" "application/x-protobuf" "" [] =
      ListsResult.httpError 400 "invalid request type" ∧
    serveLists "GET" "" "application/x-protobuf" [] =
      ListsResult.response mimeJSON (DefaultThreatLists.map toListDescriptor) :=
  ⟨rfl, rfl, rfl⟩

/-- C4 (amended): the list endpoint ignores the Content-Type header
entirely (its outcome is independent of it), accepts only `alt` values
in {"", "json"} (structured-text) and "proto" (binary), and answers any
other `alt` value with 400 "invalid request type". -/
theorem C4_amended_selection (method altQ ct ct2 : String)
    (conf : List ThreatDescriptor) :
    serveLists method altQ ct conf = serveLists method altQ ct2 conf ∧
    ((altQ = "" ∨ altQ = "json") →
      ∃ ls, serveLists "GET" altQ ct conf = ListsResult.response mimeJSON ls) ∧
    (altQ = "proto" →
      ∃ ls, serveLists "GET" altQ ct conf = ListsResult.response mimeProto ls) ∧
    (altQ ∉ ["", "json", "proto"] →
      serveLists method altQ ct conf =
        ListsResult.httpError 400 "invalid request type") := by
  refine ⟨rfl, ?_, ?_, ?_⟩
  · intro h
    refine ⟨(if conf.length ≠ 0 then conf else DefaultThreatLists).map toListDescriptor, ?_⟩
    simp [serveLists, if_pos h]
  · intro h
    have h2 : ¬(altQ = "" ∨ altQ = "json") := by
      rw [h]; simp
    refine ⟨(if conf.length ≠ 0 then conf else DefaultThreatLists).map toListDescriptor, ?_⟩
    simp [serveLists, if_neg h2, h]
  · intro hnot
    simp only [List.mem_cons, List.not_mem_nil, or_false, not_or] at hnot
    obtain ⟨h1, h2, h3⟩ := hnot
    rw [serveLists, if_neg (not_or.mpr ⟨h1, h2⟩), if_neg h3]

/-- C4 witness: each branch of the amended selection exercised at a
concrete `alt` value. -/
theorem C4_amended_selection_witness :
    (∃ ls, serveLists "GET" "" "" [] = ListsResult.response mimeJSON ls) ∧
    (∃ ls, serveLists "GET" "proto" "" [] = ListsResult.response mimeProto ls) ∧
    serveLists "PUT" "xml" "" [] = ListsResult.httpError 400 "invalid request type" :=
  ⟨(C4_amended_selection "GET" "" "" "" []).2.1 (Or.inl rfl),
   (C4_amended_selection "GET" "proto" "" "" []).2.2.1 rfl,
   (C4_amended_selection "PUT" "xml" "" "" []).2.2.2 (by decide)⟩

/-- C6 counterexample: a non-GET request to the list endpoint with an
unrecognized `alt` value is answered 400 "invalid request type", not
400 "invalid method" — the `alt` switch runs before the method check. -/
theorem C6_counterexample :
    serveLists "PUT" "xml" "" [] = ListsResult.httpError 400 "invalid request type" ∧
    serveLists "PUT" "xml" "" [] ≠ ListsResult.httpError 400 "invalid method" := by
  constructor
  · rfl
  · intro hcon
    exact absurd (ListsResult.httpError.injEq 400 "invalid request type" 400
      "invalid method" ▸ hcon) (by simp)

/-- C6 (amended): the lookup endpoint answers every non-POST request
400 "invalid method"; the list endpoint answers a non-GET request
400 "invalid method" only when its `alt` value is recognized (in
{"", "json", "proto"}), because the `alt` check runs first — with any
other `alt` value the status is still 400 but the body is
"invalid request type". -/
theorem C6_amended_methods (method altQ ct : String)
    (pbReq : FindThreatMatchesRequest)
    (classifier : List String → Except String (List (List URLThreat)))
    (conf : List ThreatDescriptor) :
    (method ≠ "POST" →
      serveLookups method altQ ct pbReq classifier =
        LookupsResult.httpError 400 "invalid method") ∧
    (method ≠ "GET" → altQ ∈ ["", "json", "proto"] →
      serveLists method altQ ct conf = ListsResult.httpError 400 "invalid method") ∧
    (method ≠ "GET" → altQ ∉ ["", "json", "proto"] →
      serveLists method altQ ct conf =
        ListsResult.httpError 400 "invalid request type") := by
  refine ⟨?_, ?_, ?_⟩
  · intro h
    rw [serveLookups, if_pos h]
  · intro h hmem
    simp only [List.mem_cons, List.not_mem_nil, or_false] at hmem
    rcases hmem with h1 | h1 | h1 <;> simp [serveLists, h1, h]
  · intro h hmem
    simp only [List.mem_cons, List.not_mem_nil, or_false, not_or] at hmem
    obtain ⟨h1, h2, h3⟩ := hmem
    rw [serveLists, if_neg (not_or.mpr ⟨h1, h2⟩), if_neg h3]

/-- C6 witness: both endpoints' method rejections and the list
endpoint's alt-first branch at concrete requests. -/
theorem C6_amended_methods_witness :
    serveLookups "GET" "json" "" reqAA cDup =
      LookupsResult.httpError 400 "invalid method" ∧
    serveLists "POST" "json" "" [] = ListsResult.httpError 400 "invalid method" ∧
    serveLists "POST" "xml" "" [] = ListsResult.httpError 400 "invalid request type" :=
  ⟨(C6_amended_methods "GET" "json" "" reqAA cDup []).1 (by decide),
   (C6_amended_methods "POST" "json" "" reqAA cDup []).2.1 (by decide) (by decide),
   (C6_amended_methods "POST" "xml" "" reqAA cDup []).2.2 (by decide) (by decide)⟩

/-- C7 counterexample: a GET to the list endpoint with an unrecognized
`alt` value is answered with an error and carries no descriptors at all,
so not every GET echoes the configured set. -/
theorem C7_counterexample :
    serveLists "GET" "xml" "" confOne =
      ListsResult.httpError 400 "invalid request type" ∧
    (serveLists "GET" "xml" "" confOne).isResponse = false := ⟨rfl, rfl⟩

/-- C7 (amended): for every GET to the list endpoint with a recognized
`alt` value, the response echoes exactly the configured descriptors in
configured order when the configuration is non-empty, and the documented
default set in its documented order otherwise.  No classifier operation
can be invoked: `serveLists` does not even receive the classifier. -/
theorem C7_amended_config_echo (altQ ct : String) (conf : List ThreatDescriptor)
    (h : altQ ∈ ["", "json", "proto"]) :
    ∃ mime, serveLists "GET" altQ ct conf =
      ListsResult.response mime
        ((if conf.length ≠ 0 then conf else DefaultThreatLists).map toListDescriptor) := by
  simp only [List.mem_cons, List.not_mem_nil, or_false] at h
  rcases h with h1 | h1 | h1
  · exact ⟨mimeJSON, by simp [serveLists, h1]⟩
  · exact ⟨mimeJSON, by simp [serveLists, h1]⟩
  · have h2 : ¬(altQ = "" ∨ altQ = "json") := by
      rw [h1]; simp
    exact ⟨mimeProto, by simp [serveLists, if_neg h2, h1]⟩

/-- C7 witness: the amended echo statement at a configured gateway and
at an unconfigured one (default set). -/
theorem C7_amended_config_echo_witness :
    (∃ mime, serveLists "GET" "" "" confOne =
      ListsResult.response mime
        ((if confOne.length ≠ 0 then confOne else DefaultThreatLists).map
          toListDescriptor)) ∧
    (∃ mime, serveLists "GET" "json" "" [] =
      ListsResult.response mime
        ((if ([] : List ThreatDescriptor).length ≠ 0 then ([] : List ThreatDescriptor)
          else DefaultThreatLists).map toListDescriptor)) :=
  ⟨C7_amended_config_echo "" "" confOne (by decide),
   C7_amended_config_echo "json" "" [] (by decide)⟩
